import Mathlib

/-!
Shallow embedding of the ShoreSquad front-end logic (`js/app.js`, and the
fuller variant of the same script that fetches NEA weather data).

Conventions of the embedding:
* The browser clock is abstracted as `today : Nat`, the current civil day
  counted from the era base 0000-03-01 (proleptic Gregorian); `getDateString`
  and the mock forecast are parameterised by it.
* `Math.random()` is abstracted as a stream `rand : Nat → ℚ` of values in
  `[0,1)`; the n-th call reads `rand n`.  A counter is threaded wherever the
  script draws random numbers.
* Network fetches are parameterised by their outcome: `Except Unit (HttpResp α)`,
  where `Except.error` is a rejected fetch (network failure) and
  `HttpResp.body : Except Unit α` is the result of `response.json()`
  (`Except.error` = parse failure).
* `JSON.parse` of the preference blob is parameterised as a function
  `String → Except Unit PrefOverrides` (`Except.error` = thrown SyntaxError).
* The DOM surfaces the script writes to are modelled by the data rendered
  into them rather than by HTML text: the weather panel holds the
  `WeatherData` it displays, the forecast grid holds a list of `Card`s, the
  marker container a list of `Marker`s.  An absent element is `none`.
* `showNotification` appends the toast to a list; the 3-second auto-removal
  timer is outside the model.
-/

namespace ShoreSquad

/-! ### Calendar arithmetic (backing `getDateString` and `formatDate`) -/

def isLeapYear (y : Nat) : Bool :=
  y % 4 = 0 && (y % 100 != 0 || y % 400 = 0)

def daysInMonth (y m : Nat) : Nat :=
  if m = 2 then (if isLeapYear y then 29 else 28)
  else if m = 4 || m = 6 || m = 9 || m = 11 then 30
  else 31

/-- Civil date (y, m, d) to days since 0000-03-01 (valid for years ≥ 1). -/
def civilDays (y m d : Nat) : Nat :=
  let ys := if m ≤ 2 then y - 1 else y
  let era := ys / 400
  let yoe := ys - era * 400
  let mp := (m + 9) % 12
  let doy := (153 * mp + 2) / 5 + (d - 1)
  let doe := yoe * 365 + yoe / 4 - yoe / 100 + doy
  era * 146097 + doe

/-- Days since 0000-03-01 back to a civil date (y, m, d). -/
def civilFromDays (z : Nat) : Nat × Nat × Nat :=
  let era := z / 146097
  let doe := z % 146097
  let yoe := (doe - doe / 1460 + doe / 36524 - doe / 146096) / 365
  let y := yoe + era * 400
  let doy := doe - (365 * yoe + yoe / 4 - yoe / 100)
  let mp := (5 * doy + 2) / 153
  let d := doy - (153 * mp + 2) / 5 + 1
  let m := if mp < 10 then mp + 3 else mp - 9
  (if m ≤ 2 then y + 1 else y, m, d)

def pad2 (n : Nat) : String :=
  if n < 10 then "0" ++ toString n else toString n

def pad4 (n : Nat) : String :=
  if n < 10 then "000" ++ toString n
  else if n < 100 then "00" ++ toString n
  else if n < 1000 then "0" ++ toString n
  else toString n

/-- ISO `YYYY-MM-DD` string of a civil day number. -/
def isoOfDay (z : Nat) : String :=
  let c := civilFromDays z
  pad4 c.1 ++ "-" ++ pad2 c.2.1 ++ "-" ++ pad2 c.2.2

/-- `getDateString(daysFromNow)`: ISO date string `daysFromNow` days after today. -/
def getDateString (today daysFromNow : Nat) : String :=
  isoOfDay (today + daysFromNow)

/-- `new Date().getDay()` for a civil date: 0 = Sunday. -/
def jsGetDay (y m d : Nat) : Nat :=
  (civilDays y m d + 3) % 7

/-- Split a character list at every dash. -/
def splitDash : List Char → List (List Char)
  | [] => [[]]
  | c :: rest =>
    let r := splitDash rest
    if c = '-' then [] :: r
    else
      match r with
      | h :: t => (c :: h) :: t
      | [] => [[c]]

/-- Decimal value of a digit list. -/
def digitsVal (l : List Char) : Nat :=
  l.foldl (fun acc c => acc * 10 + (c.toNat - 48)) 0

/-- Strict `YYYY-MM-DD` parse, mirroring the ISO date form accepted by
`new Date(dateStr + 'T00:00:00')`; out-of-range components give an
invalid date (`none`). -/
def parseYMD (s : String) : Option (Nat × Nat × Nat) :=
  match splitDash s.toList with
  | [ys, ms, ds] =>
    if ys.length = 4 && ms.length = 2 && ds.length = 2
        && ys.all Char.isDigit && ms.all Char.isDigit && ds.all Char.isDigit then
      let y := digitsVal ys
      let m := digitsVal ms
      let d := digitsVal ds
      if 1 ≤ m && m ≤ 12 && 1 ≤ d && d ≤ daysInMonth y m then
        some (y, m, d)
      else none
    else none
  | _ => none

def dayNames : List String := ["Sun", "Mon", "Tue", "Wed", "Thu", "Fri", "Sat"]

def monthNames : List String :=
  ["Jan", "Feb", "Mar", "Apr", "May", "Jun",
   "Jul", "Aug", "Sep", "Oct", "Nov", "Dec"]

/-- `formatDate(dateStr)`: weekday/day/month abbreviation.  On an
unparseable string the script indexes arrays with `NaN`, producing the
literal text `"undefined NaN undefined"` (no exception is thrown). -/
def formatDate (dateStr : String) : String :=
  if dateStr = "" then "Today"
  else
    match parseYMD dateStr with
    | some (y, m, d) =>
      dayNames.getD (jsGetDay y m d) "undefined" ++ " " ++ toString d ++ " "
        ++ monthNames.getD (m - 1) "undefined"
    | none => "undefined NaN undefined"

/-! ### String helpers and the email validator -/

/-- `String.includes` of JavaScript: `pat` occurs as a contiguous substring. -/
def strIncludes (s pat : String) : Bool :=
  (List.range (s.toList.length + 1)).any fun i =>
    pat.toList.isPrefixOf (s.toList.drop i)

/-- `toLowerCase()` of JavaScript (character-wise lowering). -/
def jsToLower (s : String) : String :=
  String.mk (s.toList.map Char.toLower)

/-- `getWeatherIcon(condition)`: emoji chosen by substring tests on the
lowercased condition label. -/
def getWeatherIcon (condition : String) : String :=
  let cl := jsToLower condition
  if strIncludes cl "sunny" || strIncludes cl "clear" then "☀️"
  else if strIncludes cl "cloudy" || strIncludes cl "cloud" then "☁️"
  else if strIncludes cl "rain" || strIncludes cl "shower" then "🌧️"
  else if strIncludes cl "thunder" || strIncludes cl "storm" then "⛈️"
  else if strIncludes cl "wind" then "💨"
  else if strIncludes cl "fog" || strIncludes cl "haze" then "🌫️"
  else "🌤️"

/-- A character matched by the regex class `[^\s@]`. -/
def atomChar (c : Char) : Bool :=
  !c.isWhitespace && c != '@'

/-- A nonempty run of `[^\s@]` characters (the regex `[^\s@]+`). -/
def atomChars (l : List Char) : Bool :=
  !l.isEmpty && l.all atomChar

/-- `isValidEmail(email)`: full match of `/^[^\s@]+@[^\s@]+\.[^\s@]+$/`,
expressed as the existence of the two splits the regex engine searches for. -/
def isValidEmail (email : String) : Bool :=
  let cs := email.toList
  (List.range cs.length).any fun ai =>
    cs.getD ai ' ' == '@' && atomChars (cs.take ai) &&
      (let t := cs.drop (ai + 1)
       (List.range t.length).any fun di =>
         t.getD di ' ' == '.' && atomChars (t.take di) && atomChars (t.drop (di + 1)))

/-! ### Data model -/

/-- The weather snapshot stored in `appState.weatherData`.  The plain
`js/app.js` variant builds it without a `source` field (`none` here); the
NEA variant tags `'NEA'` or `'Mock'`. -/
structure WeatherData where
  temperature : ℚ
  condition : String
  waves : String
  windSpeed : Nat
  humidity : Nat
  uvIndex : Nat
  source : Option String
deriving DecidableEq

/-- A toast produced by `showNotification(message, type)`.  The located
message interpolates `lat.toFixed(2)`/`lon.toFixed(2)`; its decimal
rendering is abstracted, keeping the raw coordinates. -/
inductive Notif where
  | msg (text kind : String)
  | foundYou (lat lon : ℚ)
deriving DecidableEq

structure Cleanup where
  id : Nat
  name : String
  lat : ℚ
  lon : ℚ
  volunteers : Nat
  date : String
  isNext : Bool := false
deriving DecidableEq

/-- A marker node appended to the `map-markers` container: the data its
HTML template interpolates, plus the notification text of its click handler. -/
structure Marker where
  className : String
  name : String
  volunteers : Nat
  date : String
  clickMessage : String
deriving DecidableEq

def markerOf (c : Cleanup) : Marker :=
  { className := "map-marker"
    name := c.name
    volunteers := c.volunteers
    date := c.date
    clickMessage := "🏄 " ++ c.name ++ " - " ++ toString c.volunteers ++ " volunteers joining!" }

/-- One forecast record as consumed by `displayForecast`: every field is
optional because the mock format and the NEA API format differ (missing or
falsy fields fall back to synthesized values). -/
structure ForecastDayJs where
  date : Option String := none
  high : Option Int := none
  low : Option Int := none
  forecast : Option String := none
deriving DecidableEq

/-- One rendered forecast card: the data its HTML template interpolates. -/
structure Card where
  title : String
  icon : String
  temp : Int
  condition : String
  minTemp : Int
  humidity : Int
deriving DecidableEq

structure UserPreferences where
  units : String
  notifications : Bool
  darkMode : Bool
deriving DecidableEq

/-- The built-in defaults of `appState.userPreferences`. -/
def defaultPreferences : UserPreferences :=
  { units := "metric", notifications := true, darkMode := false }

/-- The application state, together with the DOM surfaces the script writes
to (`none` = element absent from the page) and the toasts shown so far. -/
structure PageState where
  userLocation : Option (ℚ × ℚ) := none
  weatherData : Option WeatherData := none
  forecastData : Option (List ForecastDayJs) := none
  cleanups : List Cleanup := []
  userPreferences : UserPreferences := defaultPreferences
  weatherDisplayDom : Option (Option WeatherData) := some none
  forecastGridDom : Option (List Card) := some []
  mapMarkersDom : Option (List Marker) := some []
  notifications : List Notif := []
deriving DecidableEq

/-- The `appState` object as initialised at script load, with all DOM
elements present and empty. -/
def initialAppState : PageState := {}

def showNotification (st : PageState) (n : Notif) : PageState :=
  { st with notifications := st.notifications ++ [n] }

/-! ### Preference store -/

/-- The recognized fields of a parsed `appPreferences` JSON blob; a spread
`{...defaults, ...parsed}` keeps a default exactly when the parsed object
lacks the key. -/
structure PrefOverrides where
  units : Option String := none
  notifications : Option Bool := none
  darkMode : Option Bool := none
deriving DecidableEq

/-- The object spread `{...base, ...o}` restricted to the preference keys. -/
def mergePreferences (base : UserPreferences) (o : PrefOverrides) : UserPreferences :=
  { units := o.units.getD base.units
    notifications := o.notifications.getD base.notifications
    darkMode := o.darkMode.getD base.darkMode }

/-- `loadUserPreferences()`.  `saved` is `localStorage.getItem('appPreferences')`
(`none` = key absent); the truthiness test `if (saved)` also skips an empty
string.  `parse` stands for `JSON.parse`, whose `SyntaxError` on malformed
input is NOT caught by the function and propagates to the caller. -/
def loadUserPreferences (parse : String → Except Unit PrefOverrides)
    (saved : Option String) (prefs : UserPreferences) : Except Unit UserPreferences :=
  match saved with
  | none => Except.ok prefs
  | some s =>
    if s = "" then Except.ok prefs
    else
      match parse s with
      | Except.error e => Except.error e
      | Except.ok o => Except.ok (mergePreferences prefs o)

/-! ### Weather display and forecast rendering -/

/-- `updateWeatherDisplay(weatherData)`: rewrites the weather panel when the
element exists. -/
def updateWeatherDisplay (wd : WeatherData) (st : PageState) : PageState :=
  match st.weatherDisplayDom with
  | none => st
  | some _ => { st with weatherDisplayDom := some (some wd) }

/-- The candidate conditions of the randomized fallback in `displayForecast`. -/
def condOptions : List String := ["Sunny", "Partly Cloudy", "Thundery Showers"]

/-- The cards built by the `forEach` body of `displayForecast`, over the
already-sliced list.  `idx` is the running index, `ctr` the count of
`Math.random()` calls made so far; a falsy field (`none`, `0`, `""`) falls
back to a synthesized value exactly as `day.field || fallback` does. -/
def buildCards (today : Nat) (rand : Nat → ℚ) :
    List ForecastDayJs → Nat → Nat → List Card
  | [], _, _ => []
  | day :: rest, idx, ctr =>
    let dateS :=
      match day.date with
      | some s => if s = "" then getDateString today idx else s
      | none => getDateString today idx
    let tempCtr : Int × Nat :=
      match day.high with
      | some h => if h = 0 then (round ((25 : ℚ) + rand ctr * 5), ctr + 1) else (h, ctr)
      | none => (round ((25 : ℚ) + rand ctr * 5), ctr + 1)
    let ctr1 := tempCtr.2
    let minCtr : Int × Nat :=
      match day.low with
      | some l => if l = 0 then (round ((20 : ℚ) + rand ctr1 * 3), ctr1 + 1) else (l, ctr1)
      | none => (round ((20 : ℚ) + rand ctr1 * 3), ctr1 + 1)
    let ctr2 := minCtr.2
    let condCtr : String × Nat :=
      match day.forecast with
      | some c =>
        if c = "" then (condOptions.getD (Int.floor (rand ctr2 * 3)).toNat "undefined", ctr2 + 1)
        else (c, ctr2)
      | none => (condOptions.getD (Int.floor (rand ctr2 * 3)).toNat "undefined", ctr2 + 1)
    let ctr3 := condCtr.2
    let card : Card :=
      { title := formatDate dateS
        icon := getWeatherIcon condCtr.1
        temp := tempCtr.1
        condition := condCtr.1
        minTemp := minCtr.1
        humidity := round ((60 : ℚ) + rand ctr3 * 20) }
    card :: buildCards today rand rest (idx + 1) (ctr3 + 1)

/-- The dynamically-typed `forecast` argument of `displayForecast`: a falsy
value, a truthy non-array, or an array. -/
inductive JsVal where
  | nullish
  | nonArray
  | arr (l : List ForecastDayJs)
deriving DecidableEq

/-- `displayForecast(forecast)`: returns unchanged when the grid element is
absent or the argument falsy; otherwise rebuilds the grid from the first
four entries (a truthy non-array is treated as the empty list). -/
def displayForecast (today : Nat) (rand : Nat → ℚ) (forecast : JsVal)
    (st : PageState) : PageState :=
  if st.forecastGridDom = none ∨ forecast = JsVal.nullish then st
  else
    let forecasts :=
      match forecast with
      | JsVal.arr l => l
      | _ => []
    { st with forecastGridDom := some (buildCards today rand (forecasts.take 4) 0 0) }

/-! ### Weather gateway -/

/-- A resolved HTTP response: `ok` is `response.ok`, `body` the outcome of
`response.json()`. -/
structure HttpResp (α : Type) where
  ok : Bool
  body : Except Unit α

structure NEAStation where
  lat : ℚ
  lon : ℚ

structure NEAReading where
  value : ℚ

structure NEAItem where
  readings : List NEAReading

/-- The parsed shape of the air-temperature endpoint; `none` models a
missing `metadata.stations` / `items` key. -/
structure NEAData where
  stations : Option (List NEAStation) := none
  items : Option (List NEAItem) := none

structure ForecastItem where
  forecasts : List ForecastDayJs

/-- The parsed shape of the 4-day-forecast endpoint. -/
structure ForecastData where
  items : Option (List ForecastItem) := none

/-- `fetchNEAWeather()`: throws on fetch rejection, non-ok status, or JSON
parse failure; otherwise takes the first station's coordinates, averages the
readings of the first item into a weather record, stores and displays it. -/
def fetchNEAWeather (resp : Except Unit (HttpResp NEAData)) (st : PageState) :
    Except Unit PageState :=
  match resp with
  | Except.error _ => Except.error ()
  | Except.ok r =>
    if r.ok = false then Except.error ()
    else
      match r.body with
      | Except.error _ => Except.error ()
      | Except.ok data =>
        let st1 :=
          match data.stations with
          | some (s :: _) => { st with userLocation := some (s.lat, s.lon) }
          | _ => st
        match data.items with
        | some (item :: _) =>
          let avg : ℚ := (item.readings.map NEAReading.value).sum / (item.readings.length : ℚ)
          let wd : WeatherData :=
            { temperature := ((round (avg * 10) : ℤ) : ℚ) / 10
              condition := "Partly Cloudy"
              waves := "0.8-1.2m"
              windSpeed := 12
              humidity := 70
              uvIndex := 6
              source := some "NEA" }
          let st2 := updateWeatherDisplay wd { st1 with weatherData := some wd }
          Except.ok (showNotification st2 (Notif.msg "✅ Weather data loaded from NEA" "success"))
        | _ => Except.ok st1

/-- `fetchNEAForecast()`: throws on fetch rejection, non-ok status, or JSON
parse failure; otherwise stores the first item's forecasts and renders them. -/
def fetchNEAForecast (today : Nat) (rand : Nat → ℚ)
    (resp : Except Unit (HttpResp ForecastData)) (st : PageState) :
    Except Unit PageState :=
  match resp with
  | Except.error _ => Except.error ()
  | Except.ok r =>
    if r.ok = false then Except.error ()
    else
      match r.body with
      | Except.error _ => Except.error ()
      | Except.ok data =>
        match data.items with
        | some (item :: _) =>
          Except.ok (displayForecast today rand (JsVal.arr item.forecasts)
            { st with forecastData := some item.forecasts })
        | _ => Except.ok st

/-- The fixed fallback weather record of `loadMockWeatherData`. -/
def mockWeatherData : WeatherData :=
  { temperature := 22
    condition := "Sunny"
    waves := "1-1.5m"
    windSpeed := 13
    humidity := 65
    uvIndex := 7
    source := some "Mock" }

/-- The fixed 4-day fallback forecast of `loadMockWeatherData`. -/
def mockForecast (today : Nat) : List ForecastDayJs :=
  [ { date := some (getDateString today 0), high := some 32, low := some 24, forecast := some "Sunny" },
    { date := some (getDateString today 1), high := some 30, low := some 23, forecast := some "Partly Cloudy" },
    { date := some (getDateString today 2), high := some 28, low := some 22, forecast := some "Thundery Showers" },
    { date := some (getDateString today 3), high := some 31, low := some 24, forecast := some "Sunny" } ]

/-- `loadMockWeatherData()`: notifies, stores and displays the fixed weather
record, and renders the fixed forecast (which it does not store in
`appState.forecastData`). -/
def loadMockWeatherData (today : Nat) (rand : Nat → ℚ) (st : PageState) : PageState :=
  let st1 := showNotification st (Notif.msg "⚠️ Using mock weather data (API unavailable)" "info")
  let st2 := updateWeatherDisplay mockWeatherData { st1 with weatherData := some mockWeatherData }
  displayForecast today rand (JsVal.arr (mockForecast today)) st2

/-- `loadWeatherData()`: notifies, runs the two fetches in order, and on any
thrown error from either falls back to `loadMockWeatherData`. -/
def loadWeatherData (today : Nat) (rand : Nat → ℚ)
    (curResp : Except Unit (HttpResp NEAData))
    (foreResp : Except Unit (HttpResp ForecastData)) (st : PageState) : PageState :=
  let st0 := showNotification st (Notif.msg "🌤️ Loading real-time weather data from NEA..." "info")
  match fetchNEAWeather curResp st0 with
  | Except.error _ => loadMockWeatherData today rand st0
  | Except.ok st1 =>
    match fetchNEAForecast today rand foreResp st1 with
    | Except.error _ => loadMockWeatherData today rand st1
    | Except.ok st2 => st2

/-! ### Map markers and cleanup events -/

def generateMockCleanups : List Cleanup :=
  [ { id := 0, name := "Pasir Ris Beach", lat := 1.381497, lon := 103.955574,
      volunteers := 52, date := "2025-12-02", isNext := true },
    { id := 1, name := "Malibu Beach Cleanup", lat := 34.0195, lon := -118.6814,
      volunteers := 42, date := "2025-12-05" },
    { id := 2, name := "Santa Monica Pier Cleanup", lat := 34.0195, lon := -118.4965,
      volunteers := 28, date := "2025-12-06" },
    { id := 3, name := "Huntington Beach Drive", lat := 33.8815, lon := -118.0023,
      volunteers := 35, date := "2025-12-07" },
    { id := 4, name := "Laguna Beach Rally", lat := 33.5427, lon := -117.7827,
      volunteers := 18, date := "2025-12-08" } ]

set_option linter.unusedVariables false in
/-- `updateMapMarkers(centerLat, centerLon)`: returns unchanged when the
container is absent; otherwise clears it and appends one marker per cleanup.
The two center arguments are accepted and ignored, as in the source. -/
def updateMapMarkers (centerLat centerLon : Option ℚ) (st : PageState) : PageState :=
  match st.mapMarkersDom with
  | none => st
  | some _ => { st with mapMarkersDom := some (st.cleanups.map markerOf) }

/-! ### Location service -/

/-- The outcome the platform reports to `getCurrentPosition`. -/
inductive GeoOutcome where
  | success (lat lon : ℚ)
  | failure (code : Int)

/-- The message chosen by `handleLocationError`: `errorMessages[error.code]`
with the generic fallback. -/
def locationErrorMessage (code : Int) : String :=
  if code = 1 then "Permission denied. Please enable location access."
  else if code = 2 then "Location unavailable. Try again."
  else if code = 3 then "Location request timed out."
  else "Location error"

def handleLocationError (code : Int) (st : PageState) : PageState :=
  showNotification st (Notif.msg (locationErrorMessage code) "error")

/-- `handleLocationSuccess(lat, lon)`: notifies, re-renders markers, and
kicks off `fetchWeatherForLocation`, which logs and runs `fetchNEAWeather`;
a rejection there is an unhandled promise rejection that leaves the state
as it was (the scroll side effect is outside the model). -/
def handleLocationSuccess (lat lon : ℚ) (curResp : Except Unit (HttpResp NEAData))
    (st : PageState) : PageState :=
  let st1 := showNotification st (Notif.foundYou lat lon)
  let st2 := updateMapMarkers (some lat) (some lon) st1
  match fetchNEAWeather curResp st2 with
  | Except.error _ => st2
  | Except.ok st3 => st3

/-- `handleLocateUser()`.  `geo` is `none` when `navigator.geolocation` is
absent.  The second component records whether `getCurrentPosition` was
invoked. -/
def handleLocateUser (geo : Option GeoOutcome) (curResp : Except Unit (HttpResp NEAData))
    (st : PageState) : PageState × Bool :=
  match geo with
  | none => (showNotification st (Notif.msg "Geolocation not supported" "error"), false)
  | some outcome =>
    let st1 := showNotification st (Notif.msg "📍 Finding your location..." "info")
    match outcome with
    | GeoOutcome.success lat lon =>
      (handleLocationSuccess lat lon curResp { st1 with userLocation := some (lat, lon) }, true)
    | GeoOutcome.failure code => (handleLocationError code st1, true)

/-- The failure taxonomy of `fetchNEAWeather`: rejected fetch, non-ok
status, or parse failure. -/
def neaRespFails (r : Except Unit (HttpResp NEAData)) : Bool :=
  match r with
  | Except.error _ => true
  | Except.ok hr =>
    if hr.ok = false then true
    else
      match hr.body with
      | Except.error _ => true
      | Except.ok _ => false

/-- The failure taxonomy of `fetchNEAForecast`. -/
def forecastRespFails (r : Except Unit (HttpResp ForecastData)) : Bool :=
  match r with
  | Except.error _ => true
  | Except.ok hr =>
    if hr.ok = false then true
    else
      match hr.body with
      | Except.error _ => true
      | Except.ok _ => false

/-! ### Helper lemmas -/

lemma displayForecast_weatherData (today : Nat) (rand : Nat → ℚ) (f : JsVal)
    (st : PageState) : (displayForecast today rand f st).weatherData = st.weatherData := by
  unfold displayForecast
  split <;> rfl

lemma displayForecast_weatherDisplayDom (today : Nat) (rand : Nat → ℚ) (f : JsVal)
    (st : PageState) :
    (displayForecast today rand f st).weatherDisplayDom = st.weatherDisplayDom := by
  unfold displayForecast
  split <;> rfl

lemma updateWeatherDisplay_weatherData (wd : WeatherData) (st : PageState) :
    (updateWeatherDisplay wd st).weatherData = st.weatherData := by
  unfold updateWeatherDisplay
  split <;> rfl

lemma updateWeatherDisplay_set (wd : WeatherData) (st : PageState)
    (h : st.weatherDisplayDom ≠ none) :
    (updateWeatherDisplay wd st).weatherDisplayDom = some (some wd) := by
  unfold updateWeatherDisplay
  split
  · exact absurd (by assumption) h
  · rfl

lemma loadMockWeatherData_weatherData (today : Nat) (rand : Nat → ℚ) (st : PageState) :
    (loadMockWeatherData today rand st).weatherData = some mockWeatherData := by
  unfold loadMockWeatherData
  rw [displayForecast_weatherData, updateWeatherDisplay_weatherData]

lemma loadMockWeatherData_display (today : Nat) (rand : Nat → ℚ) (st : PageState)
    (h : st.weatherDisplayDom ≠ none) :
    (loadMockWeatherData today rand st).weatherDisplayDom = some (some mockWeatherData) := by
  unfold loadMockWeatherData
  rw [displayForecast_weatherDisplayDom, updateWeatherDisplay_set]
  exact h

lemma fetchNEAWeather_fail (r : Except Unit (HttpResp NEAData)) (st : PageState)
    (h : neaRespFails r = true) : fetchNEAWeather r st = Except.error () := by
  obtain _ | ⟨ok, body⟩ := r
  · rfl
  · cases ok <;> cases body <;> simp_all [neaRespFails, fetchNEAWeather]

lemma fetchNEAForecast_fail (today : Nat) (rand : Nat → ℚ)
    (r : Except Unit (HttpResp ForecastData)) (st : PageState)
    (h : forecastRespFails r = true) :
    fetchNEAForecast today rand r st = Except.error () := by
  obtain _ | ⟨ok, body⟩ := r
  · rfl
  · cases ok <;> cases body <;> simp_all [forecastRespFails, fetchNEAForecast]

lemma fetchNEAWeather_display_pres (r : Except Unit (HttpResp NEAData))
    (st st' : PageState) (hok : fetchNEAWeather r st = Except.ok st')
    (h : st.weatherDisplayDom ≠ none) : st'.weatherDisplayDom ≠ none := by
  obtain _ | ⟨ok, body⟩ := r
  · exact absurd hok (by simp [fetchNEAWeather])
  · cases ok
    · exact absurd hok (by simp [fetchNEAWeather])
    · obtain e | data := body
      · exact absurd hok (by simp [fetchNEAWeather])
      · obtain ⟨stations, items⟩ := data
        rcases stations with _ | ⟨_ | ⟨s, srest⟩⟩ <;>
          rcases items with _ | ⟨_ | ⟨item, irest⟩⟩ <;>
            simp [fetchNEAWeather] at hok <;>
              subst hok <;>
                simp_all [showNotification, updateWeatherDisplay_set]

lemma updateWeatherDisplay_forecastGrid (wd : WeatherData) (st : PageState) :
    (updateWeatherDisplay wd st).forecastGridDom = st.forecastGridDom := by
  unfold updateWeatherDisplay
  split <;> rfl

lemma displayForecast_grid_set (today : Nat) (rand : Nat → ℚ) (l : List ForecastDayJs)
    (st : PageState) (h : st.forecastGridDom ≠ none) :
    (displayForecast today rand (JsVal.arr l) st).forecastGridDom
      = some (buildCards today rand (l.take 4) 0 0) := by
  unfold displayForecast
  rw [if_neg]
  simp [h]

lemma buildCards_length (today : Nat) (rand : Nat → ℚ) :
    ∀ (l : List ForecastDayJs) (idx ctr : Nat),
      (buildCards today rand l idx ctr).length = l.length := by
  intro l
  induction l with
  | nil => intro idx ctr; rfl
  | cons day rest ih => intro idx ctr; simp [buildCards, ih]

/-! ### Claim theorems -/

/-- C1: if the current-conditions fetch or the forecast fetch fails (network
error, non-success HTTP status, or parse failure), `loadWeatherData` catches
the error and substitutes the fixed fallback record: afterwards the stored
weather snapshot is `mockWeatherData`, whose temperature is exactly 22 and
whose source tag is exactly "Mock", and the weather panel (when present)
displays that same record. -/
theorem weather_fallback_on_fetch_failure (today : Nat) (rand : Nat → ℚ)
    (curResp : Except Unit (HttpResp NEAData))
    (foreResp : Except Unit (HttpResp ForecastData)) (st : PageState)
    (h : neaRespFails curResp = true ∨ forecastRespFails foreResp = true) :
    (loadWeatherData today rand curResp foreResp st).weatherData = some mockWeatherData ∧
    mockWeatherData.temperature = 22 ∧
    mockWeatherData.source = some "Mock" ∧
    (st.weatherDisplayDom ≠ none →
      (loadWeatherData today rand curResp foreResp st).weatherDisplayDom
        = some (some mockWeatherData)) := by
  rcases h with h | h
  · simp only [loadWeatherData, fetchNEAWeather_fail _ _ h]
    exact ⟨loadMockWeatherData_weatherData _ _ _, rfl, rfl,
      fun hd => loadMockWeatherData_display _ _ _ hd⟩
  · cases hcur : fetchNEAWeather curResp
      (showNotification st (Notif.msg "🌤️ Loading real-time weather data from NEA..." "info")) with
    | error e =>
      simp only [loadWeatherData, hcur]
      exact ⟨loadMockWeatherData_weatherData _ _ _, rfl, rfl,
        fun hd => loadMockWeatherData_display _ _ _ hd⟩
    | ok st1 =>
      simp only [loadWeatherData, hcur, fetchNEAForecast_fail _ _ _ _ h]
      exact ⟨loadMockWeatherData_weatherData _ _ _, rfl, rfl,
        fun hd => loadMockWeatherData_display _ _ _
          (fetchNEAWeather_display_pres _ _ _ hcur hd)⟩

/-- C1 witness: a rejected current-conditions fetch at the initial state. -/
theorem weather_fallback_on_fetch_failure_witness :
    (loadWeatherData 0 (fun _ => 0) (Except.error ()) (Except.error ())
        initialAppState).weatherData = some mockWeatherData ∧
    (loadWeatherData 0 (fun _ => 0) (Except.error ()) (Except.error ())
        initialAppState).weatherDisplayDom = some (some mockWeatherData) :=
  ⟨(weather_fallback_on_fetch_failure 0 (fun _ => 0) (Except.error ()) (Except.error ())
      initialAppState (Or.inl rfl)).1,
   (weather_fallback_on_fetch_failure 0 (fun _ => 0) (Except.error ()) (Except.error ())
      initialAppState (Or.inl rfl)).2.2.2 (by decide)⟩

/-- C2: with no persisted record the preference load yields exactly the
built-in defaults (units "metric", notifications true, darkMode false); with
a persisted blob overriding exactly one field it yields the defaults with
only that field replaced. -/
theorem load_preferences_defaults_and_single_override
    (parse : String → Except Unit PrefOverrides) :
    defaultPreferences = { units := "metric", notifications := true, darkMode := false } ∧
    loadUserPreferences parse none defaultPreferences = Except.ok defaultPreferences ∧
    (∀ s u, s ≠ "" → parse s = Except.ok { units := some u } →
      loadUserPreferences parse (some s) defaultPreferences
        = Except.ok { defaultPreferences with units := u }) ∧
    (∀ s b, s ≠ "" → parse s = Except.ok { notifications := some b } →
      loadUserPreferences parse (some s) defaultPreferences
        = Except.ok { defaultPreferences with notifications := b }) ∧
    (∀ s b, s ≠ "" → parse s = Except.ok { darkMode := some b } →
      loadUserPreferences parse (some s) defaultPreferences
        = Except.ok { defaultPreferences with darkMode := b }) := by
  refine ⟨rfl, rfl, ?_, ?_, ?_⟩ <;>
    · intro s v hs hp
      simp [loadUserPreferences, hs, hp, mergePreferences, defaultPreferences]

/-- C2 witness: a blob overriding only the unit system. -/
theorem load_preferences_defaults_and_single_override_witness :
    loadUserPreferences (fun _ => Except.ok { units := some "imperial" })
        (some "\x7b\"units\":\"imperial\"\x7d") defaultPreferences
      = Except.ok { defaultPreferences with units := "imperial" } :=
  (load_preferences_defaults_and_single_override _).2.2.1
    "\x7b\"units\":\"imperial\"\x7d" "imperial" (by decide) rfl

/-- C3 counterexample: the claim that the preference load never raises is
false — with `JSON.parse` raising on a malformed blob (modelled by a parse
outcome that errors on the stored string "not json"), the error escapes
`loadUserPreferences`, which has no try/catch. -/
theorem load_preferences_malformed_raises :
    ¬ ∀ (parse : String → Except Unit PrefOverrides) (saved : Option String),
        ∃ p, loadUserPreferences parse saved defaultPreferences = Except.ok p := by
  intro hall
  rcases hall (fun _ => Except.error ()) (some "not json") with ⟨p, hp⟩
  simp [loadUserPreferences] at hp

/-- C3 amended: the load tolerates absent or empty storage, keeping the
current preferences; but when the persisted string's JSON parse fails, the
error propagates out of the load uncaught (the preferences field itself is
never assigned). -/
theorem load_preferences_error_propagates
    (parse : String → Except Unit PrefOverrides) (prefs : UserPreferences) :
    loadUserPreferences parse none prefs = Except.ok prefs ∧
    loadUserPreferences parse (some "") prefs = Except.ok prefs ∧
    (∀ s, s ≠ "" → parse s = Except.error () →
      loadUserPreferences parse (some s) prefs = Except.error ()) := by
  refine ⟨rfl, rfl, fun s hs hp => ?_⟩
  simp [loadUserPreferences, hs, hp]

/-- C3 witness: a malformed nonempty blob makes the load raise. -/
theorem load_preferences_error_propagates_witness :
    loadUserPreferences (fun _ => Except.error ()) (some "oops") defaultPreferences
      = Except.error () :=
  (load_preferences_error_propagates (fun _ => Except.error ()) defaultPreferences).2.2
    "oops" (by decide) rfl

/-- C4: the email validator accepts "a@b.co" and rejects "a@b" and "abc". -/
theorem email_validator_examples :
    isValidEmail "a@b.co" = true ∧ isValidEmail "a@b" = false ∧ isValidEmail "abc" = false := by
  decide

/-- C5: the geolocation error handler maps code 1 to the exact
permission-denied message, code 2 to the position-unavailable message,
code 3 to the timeout message, and every other code to the generic
"Location error", always shown as an error toast. -/
theorem location_error_messages :
    locationErrorMessage 1 = "Permission denied. Please enable location access." ∧
    locationErrorMessage 2 = "Location unavailable. Try again." ∧
    locationErrorMessage 3 = "Location request timed out." ∧
    (∀ c : ℤ, c ≠ 1 → c ≠ 2 → c ≠ 3 → locationErrorMessage c = "Location error") ∧
    (∀ (c : ℤ) (st : PageState),
      handleLocationError c st
        = showNotification st (Notif.msg (locationErrorMessage c) "error")) := by
  refine ⟨rfl, rfl, rfl, fun c h1 h2 h3 => ?_, fun c st => rfl⟩
  simp [locationErrorMessage, h1, h2, h3]

/-- C5 witness: an unrecognized platform error code. -/
theorem location_error_messages_witness :
    locationErrorMessage 42 = "Location error" :=
  location_error_messages.2.2.2.1 42 (by decide) (by decide) (by decide)

/-- C6: when the platform geolocation capability is absent, the locate
operation only shows the error toast and returns: no position is requested
and the stored user-location field is unchanged. -/
theorem locate_without_capability (curResp : Except Unit (HttpResp NEAData))
    (st : PageState) :
    handleLocateUser none curResp st
      = (showNotification st (Notif.msg "Geolocation not supported" "error"), false) ∧
    (handleLocateUser none curResp st).1.userLocation = st.userLocation ∧
    (handleLocateUser none curResp st).2 = false :=
  ⟨rfl, rfl, rfl⟩

/-- C7: the marker renderer clears its container before rebuilding, so a
second call on the same state is a no-op and, when the container exists,
the result holds exactly one marker per cleanup event. -/
theorem marker_render_idempotent (cA dA cB dB : Option ℚ) (st : PageState) :
    updateMapMarkers cB dB (updateMapMarkers cA dA st) = updateMapMarkers cA dA st ∧
    (st.mapMarkersDom ≠ none →
      (updateMapMarkers cA dA st).mapMarkersDom = some (st.cleanups.map markerOf) ∧
      (st.cleanups.map markerOf).length = st.cleanups.length) := by
  constructor
  · cases hm : st.mapMarkersDom <;> simp [updateMapMarkers, hm]
  · intro h
    cases hm : st.mapMarkersDom with
    | none => exact absurd hm h
    | some l => simp [updateMapMarkers, hm]

/-- C7 witness: rendering the static cleanup list leaves one marker per
event. -/
theorem marker_render_idempotent_witness :
    (updateMapMarkers none none
        { initialAppState with cleanups := generateMockCleanups }).mapMarkersDom
      = some (generateMockCleanups.map markerOf) ∧
    (generateMockCleanups.map markerOf).length = generateMockCleanups.length :=
  (marker_render_idempotent none none none none
    { initialAppState with cleanups := generateMockCleanups }).2 (by decide)

/-- C8: `formatDate` on "2025-12-02" yields "Tue 2 Dec", the abbreviation
consistent with that calendar date (a Tuesday, 2nd of December). -/
theorem formatDate_2025_12_02 : formatDate "2025-12-02" = "Tue 2 Dec" := by
  decide

/-- C9: the primary weather fallback forecast has exactly 4 entries whose
date strings are today, today+1, today+2 and today+3, and whose condition
labels and high/low temperatures are the fixed canned values; the fallback
renders exactly those 4 entries into the grid. -/
theorem mock_forecast_deterministic (today : Nat) (rand : Nat → ℚ) (st : PageState) :
    (mockForecast today).length = 4 ∧
    (mockForecast today).map ForecastDayJs.date
      = [some (isoOfDay today), some (isoOfDay (today + 1)),
         some (isoOfDay (today + 2)), some (isoOfDay (today + 3))] ∧
    (mockForecast today).map ForecastDayJs.high = [some 32, some 30, some 28, some 31] ∧
    (mockForecast today).map ForecastDayJs.low = [some 24, some 23, some 22, some 24] ∧
    (mockForecast today).map ForecastDayJs.forecast
      = [some "Sunny", some "Partly Cloudy", some "Thundery Showers", some "Sunny"] ∧
    (st.forecastGridDom ≠ none →
      ∃ cards, (loadMockWeatherData today rand st).forecastGridDom = some cards ∧
        cards.length = 4) := by
  refine ⟨rfl, rfl, rfl, rfl, rfl, fun h => ?_⟩
  refine ⟨buildCards today rand ((mockForecast today).take 4) 0 0, ?_, ?_⟩
  · unfold loadMockWeatherData
    exact displayForecast_grid_set _ _ _ _ (by rw [updateWeatherDisplay_forecastGrid]; exact h)
  · rw [buildCards_length]
    rfl

/-- C9 witness: the fallback at the initial state renders 4 cards. -/
theorem mock_forecast_deterministic_witness :
    ∃ cards, (loadMockWeatherData 0 (fun _ => 0) initialAppState).forecastGridDom = some cards ∧
      cards.length = 4 :=
  (mock_forecast_deterministic 0 (fun _ => 0) initialAppState).2.2.2.2.2 (by decide)

/-- C10: the forecast display renders at most 4 cards: an array input is
truncated to its first 4 entries, a missing (falsy) input or an absent grid
element leaves the page unchanged, and a truthy non-array renders zero
cards. -/
theorem forecast_truncated_to_four (today : Nat) (rand : Nat → ℚ)
    (st : PageState) (l : List ForecastDayJs) :
    (st.forecastGridDom ≠ none →
      (displayForecast today rand (JsVal.arr l) st).forecastGridDom
          = some (buildCards today rand (l.take 4) 0 0) ∧
      (buildCards today rand (l.take 4) 0 0).length = min 4 l.length ∧
      (buildCards today rand (l.take 4) 0 0).length ≤ 4 ∧
      (displayForecast today rand JsVal.nonArray st).forecastGridDom = some []) ∧
    displayForecast today rand JsVal.nullish st = st ∧
    (st.forecastGridDom = none → ∀ f, displayForecast today rand f st = st) := by
  refine ⟨fun h => ⟨displayForecast_grid_set _ _ _ _ h, ?_, ?_, ?_⟩, ?_, fun h f => ?_⟩
  · rw [buildCards_length, List.length_take]
  · rw [buildCards_length, List.length_take]
    exact Nat.min_le_left 4 l.length
  · unfold displayForecast
    rw [if_neg]
    · rfl
    · simp [h]
  · simp [displayForecast]
  · simp [displayForecast, h]

/-- C10 witness: a 6-entry list renders exactly 4 cards; nullish and
non-array inputs render none. -/
theorem forecast_truncated_to_four_witness :
    (displayForecast 0 (fun _ => 0) (JsVal.arr (List.replicate 6 {}))
        initialAppState).forecastGridDom
      = some (buildCards 0 (fun _ => 0) ((List.replicate 6 ({} : ForecastDayJs)).take 4) 0 0) ∧
    (buildCards 0 (fun _ => 0) ((List.replicate 6 ({} : ForecastDayJs)).take 4) 0 0).length
      = min 4 (List.replicate 6 ({} : ForecastDayJs)).length ∧
    (buildCards 0 (fun _ => 0) ((List.replicate 6 ({} : ForecastDayJs)).take 4) 0 0).length ≤ 4 ∧
    (displayForecast 0 (fun _ => 0) JsVal.nonArray initialAppState).forecastGridDom = some [] :=
  (forecast_truncated_to_four 0 (fun _ => 0) initialAppState (List.replicate 6 {})).1 (by decide)

end ShoreSquad
